import Mathlib

/-!
Shallow embedding of `PSYCHHIDSetReport` from
`src/PsychSourceGL/Source/Common/PsychHID/PsychHIDSetReport.c`.

The C function validates its arguments, optionally overwrites the first
byte of the caller buffer with the low byte of `reportID`, then either
echoes the report (reportType 0) or dispatches to one of two
compile-time-selected backends:

* Backend A (OSX, lines 134-147): the IOKit `setReport` call with report
  type `reportType - 1`, the report ID, the buffer, the report size and a
  fixed 50 ms timeout; a timestamp is captured into the process-wide
  `AInScanStart` variable when `reportID == 0x11`; the raw status code is
  handed to the error-lookup collaborator `PsychHIDErrors`.

* Backend B (non-OSX, lines 148-182): for `reportID == 0` the buffer
  handed to hidapi is a scratch copy prefixed with a zero byte (lines
  152-157); `hid_write` is used for reportType 2 and
  `hid_send_feature_report` for reportType 3; the same `0x11` timestamp
  side effect follows; a non-negative return value is normalized to 0
  before the error lookup.

Machine integers `reportType` and `reportID` are C `int`; they are
modelled as `Int` (no arithmetic in the function can overflow an `int`
for the values of interest).  The byte buffer is a `List Nat` of byte
values.  The external backends and the error-lookup collaborator are
modelled as parameters (`backendRet`, `interfaceOk`, `errLookup`), and
the observable effects of a call (final caller buffer, backend
invocation, echo printing, timestamp captures, returned error code) are
collected in an explicit result record.

`MAXREPORTSIZE` is defined in the PsychHID header, which is not part of
this excerpt; the model is therefore parameterized by `maxReportSize`.
-/

namespace PsychHIDSetReport

/-- Fatal aborts of the call: the three validation errors raised by
`PsychErrorExitMsg` (lines 109-117) and the Backend A `PrintfExit` on a
missing device interface (line 140). -/
inductive SetReportFailure where
  | SizeError
  | EmptyReportError
  | InvalidTypeError
  | BadInterface
deriving DecidableEq

/-- Low byte of a C `int`, as computed by `0xff & reportID` on line 124
(two's-complement bitwise AND, i.e. the euclidean remainder mod 256). -/
def lowByte (x : Int) : Nat := (x % 256).toNat

/-- The validation block of lines 109-117, in source order: size too
large, then empty, then invalid report type
(`reportType < 0 || reportType > 3 || reportType == 1`). -/
def validate (maxReportSize : Nat) (reportType : Int) (reportSize : Nat) :
    Option SetReportFailure :=
  if reportSize > maxReportSize then some .SizeError
  else if reportSize < 1 then some .EmptyReportError
  else if reportType < 0 ∨ reportType > 3 ∨ reportType = 1 then some .InvalidTypeError
  else none

/-- Line 124: for nonzero reportID the first byte of the caller buffer is
overwritten with the low byte of reportID; otherwise the buffer is left
alone. -/
def mutateBuffer (reportID : Int) (report : List Nat) : List Nat :=
  if reportID ≠ 0 then report.set 0 (lowByte reportID) else report

/-- The two hidapi operations of Backend B: `hid_write` (line 164) and
`hid_send_feature_report` (line 170). -/
inductive BOp where
  | write
  | sendFeatureReport
deriving DecidableEq

/-- One invocation of a Backend B operation, with the exact byte buffer
handed to it. -/
structure BCall where
  op : BOp
  buffer : List Nat
deriving DecidableEq

/-- Observable outcome of a Backend B call that did not abort:
the final state of the caller buffer, the echo diagnostic output
(reportType, reportID and the printed bytes) when taken, the backend
invocation when taken, the number of timestamp captures into
`AInScanStart`, the error code stored in the result struct, the code
handed to the `PsychHIDErrors` lookup, and the name/description pair. -/
structure BResult where
  callerBuffer : List Nat
  echoPrint : Option (Int × Int × List Nat)
  backendCall : Option BCall
  timestampCaptures : Nat
  errorCode : Int
  lookupArg : Option Int
  name : String
  description : String
deriving DecidableEq

/-- Post-validation body of the function on Backend B (lines 123-132 and
148-182): mutate the buffer for nonzero reportID, echo for reportType 0,
otherwise frame a zero byte for reportID 0, invoke `hid_write` or
`hid_send_feature_report`, capture the `0x11` timestamp, normalize a
non-negative return to 0 and run the error lookup. -/
def bDispatch (reportType reportID : Int) (report : List Nat)
    (backendRet : Int) (errLookup : Int → String × String) : BResult :=
  let reportBuffer := mutateBuffer reportID report
  if reportType = 0 then
    { callerBuffer := reportBuffer
      echoPrint := some (reportType, reportID, reportBuffer)
      backendCall := none
      timestampCaptures := 0
      errorCode := 0
      lookupArg := none
      name := ""
      description := "" }
  else
    let sendBuffer := if reportID = 0 then 0 :: reportBuffer else reportBuffer
    let op := if reportType = 2 then BOp.write else BOp.sendFeatureReport
    let error := if 0 ≤ backendRet then 0 else backendRet
    { callerBuffer := reportBuffer
      echoPrint := none
      backendCall := some { op := op, buffer := sendBuffer }
      timestampCaptures := if reportID = 0x11 then 1 else 0
      errorCode := error
      lookupArg := some error
      name := (errLookup error).1
      description := (errLookup error).2 }

/-- The whole call on Backend B: validation, then the dispatch body.
`backendRet` is the value returned by the hidapi call (used only when a
backend call occurs) and `errLookup` the `PsychHIDErrors` collaborator. -/
def setReportB (maxReportSize : Nat) (reportType reportID : Int)
    (report : List Nat) (backendRet : Int)
    (errLookup : Int → String × String) :
    Except SetReportFailure BResult :=
  match validate maxReportSize reportType report.length with
  | some e => .error e
  | none => .ok (bDispatch reportType reportID report backendRet errLookup)

/-- One invocation of the Backend A IOKit `setReport` operation
(line 138), with the arguments the source passes. -/
structure ACall where
  reportType : Int
  reportID : Int
  buffer : List Nat
  reportSize : Nat
  timeoutMs : Nat
deriving DecidableEq

/-- Observable outcome of a Backend A call that did not abort; fields as
in `BResult`. -/
structure AResult where
  callerBuffer : List Nat
  echoPrint : Option (Int × Int × List Nat)
  backendCall : Option ACall
  timestampCaptures : Nat
  errorCode : Int
  lookupArg : Option Int
  name : String
  description : String
deriving DecidableEq

/-- Post-validation body of the function on Backend A (lines 123-147):
mutate the buffer for nonzero reportID, echo for reportType 0, otherwise
abort on a missing interface or invoke `setReport` with
`reportType - 1`, the reportID, the buffer, the report size and a 50 ms
timeout; capture the `0x11` timestamp and run the error lookup on the
raw status code. -/
def aDispatch (reportType reportID : Int) (report : List Nat)
    (interfaceOk : Bool) (backendRet : Int)
    (errLookup : Int → String × String) :
    Except SetReportFailure AResult :=
  let reportBuffer := mutateBuffer reportID report
  if reportType = 0 then
    .ok { callerBuffer := reportBuffer
          echoPrint := some (reportType, reportID, reportBuffer)
          backendCall := none
          timestampCaptures := 0
          errorCode := 0
          lookupArg := none
          name := ""
          description := "" }
  else if interfaceOk then
    .ok { callerBuffer := reportBuffer
          echoPrint := none
          backendCall := some { reportType := reportType - 1
                                reportID := reportID
                                buffer := reportBuffer
                                reportSize := report.length
                                timeoutMs := 50 }
          timestampCaptures := if reportID = 0x11 then 1 else 0
          errorCode := backendRet
          lookupArg := some backendRet
          name := (errLookup backendRet).1
          description := (errLookup backendRet).2 }
  else
    .error .BadInterface

/-- The whole call on Backend A: validation, then the dispatch body. -/
def setReportA (maxReportSize : Nat) (reportType reportID : Int)
    (report : List Nat) (interfaceOk : Bool) (backendRet : Int)
    (errLookup : Int → String × String) :
    Except SetReportFailure AResult :=
  match validate maxReportSize reportType report.length with
  | some e => .error e
  | none => aDispatch reportType reportID report interfaceOk backendRet errLookup

/-- Size of the static scratch buffer declared on line 50:
`MAXREPORTSIZE + 1` bytes. -/
def scratchBufferSize (maxReportSize : Nat) : Nat := maxReportSize + 1

/-- The scratch-buffer indices written by the reportID-0 framing path
(lines 152-154): index 0 for the framing byte and indices 1..reportSize
for the `memcpy` of the caller bytes, i.e. 0..reportSize. -/
def zeroFrameWriteIndices (reportSize : Nat) : List Nat :=
  List.range (reportSize + 1)

/-- A trivial error-lookup collaborator used to instantiate witnesses. -/
def lk0 : Int → String × String := fun _ => ("", "")

example : setReportB 3 2 0 [0xAA, 0xBB] 2 lk0 =
    .ok { callerBuffer := [0xAA, 0xBB]
          echoPrint := none
          backendCall := some { op := .write, buffer := [0, 0xAA, 0xBB] }
          timestampCaptures := 0
          errorCode := 0
          lookupArg := some 0
          name := ""
          description := "" } := by rfl

example : setReportB 3 3 5 [0x00, 0x11, 0x22] 3 lk0 =
    .ok { callerBuffer := [0x05, 0x11, 0x22]
          echoPrint := none
          backendCall := some { op := .sendFeatureReport
                                buffer := [0x05, 0x11, 0x22] }
          timestampCaptures := 0
          errorCode := 0
          lookupArg := some 0
          name := ""
          description := "" } := by rfl

example : lowByte 256 = 0 := by decide

example : lowByte (-1) = 255 := by decide

/-! ### Helper lemmas -/

theorem validate_none_iff (m : Nat) (t : Int) (n : Nat) :
    validate m t n = none ↔ n ≤ m ∧ 1 ≤ n ∧ (t = 0 ∨ t = 2 ∨ t = 3) := by
  unfold validate
  split_ifs with h1 h2 h3 <;> simp_all <;> omega

theorem setReportB_ok_iff (m : Nat) (t id : Int) (rep : List Nat)
    (ret : Int) (lk : Int → String × String) (res : BResult) :
    setReportB m t id rep ret lk = .ok res ↔
      validate m t rep.length = none ∧ res = bDispatch t id rep ret lk := by
  unfold setReportB
  cases h : validate m t rep.length with
  | some e => simp [h]
  | none => simp [h, eq_comm]

theorem setReportB_err_of_validate (m : Nat) (t id : Int) (rep : List Nat)
    (ret : Int) (lk : Int → String × String) (e : SetReportFailure)
    (h : validate m t rep.length = some e) :
    setReportB m t id rep ret lk = .error e := by
  unfold setReportB
  rw [h]

theorem setReportA_ok_iff (m : Nat) (t id : Int) (rep : List Nat)
    (iok : Bool) (ret : Int) (lk : Int → String × String) (res : AResult) :
    setReportA m t id rep iok ret lk = .ok res ↔
      validate m t rep.length = none ∧
        aDispatch t id rep iok ret lk = .ok res := by
  unfold setReportA
  cases h : validate m t rep.length with
  | some e => simp [h]
  | none => simp [h]

theorem setReportA_err_of_validate (m : Nat) (t id : Int) (rep : List Nat)
    (iok : Bool) (ret : Int) (lk : Int → String × String)
    (e : SetReportFailure) (h : validate m t rep.length = some e) :
    setReportA m t id rep iok ret lk = .error e := by
  unfold setReportA
  rw [h]

theorem bDispatch_echo (id : Int) (rep : List Nat) (ret : Int)
    (lk : Int → String × String) :
    bDispatch 0 id rep ret lk =
      { callerBuffer := mutateBuffer id rep
        echoPrint := some (0, id, mutateBuffer id rep)
        backendCall := none
        timestampCaptures := 0
        errorCode := 0
        lookupArg := none
        name := ""
        description := "" } := by
  unfold bDispatch
  simp

theorem bDispatch_send (t id : Int) (rep : List Nat) (ret : Int)
    (lk : Int → String × String) (ht : t ≠ 0) :
    bDispatch t id rep ret lk =
      { callerBuffer := mutateBuffer id rep
        echoPrint := none
        backendCall := some
          { op := if t = 2 then BOp.write else BOp.sendFeatureReport
            buffer := if id = 0 then 0 :: mutateBuffer id rep
                      else mutateBuffer id rep }
        timestampCaptures := if id = 0x11 then 1 else 0
        errorCode := if 0 ≤ ret then 0 else ret
        lookupArg := some (if 0 ≤ ret then 0 else ret)
        name := (lk (if 0 ≤ ret then 0 else ret)).1
        description := (lk (if 0 ≤ ret then 0 else ret)).2 } := by
  unfold bDispatch
  rw [if_neg ht]

theorem aDispatch_echo (id : Int) (rep : List Nat) (iok : Bool) (ret : Int)
    (lk : Int → String × String) :
    aDispatch 0 id rep iok ret lk =
      .ok { callerBuffer := mutateBuffer id rep
            echoPrint := some (0, id, mutateBuffer id rep)
            backendCall := none
            timestampCaptures := 0
            errorCode := 0
            lookupArg := none
            name := ""
            description := "" } := by
  unfold aDispatch
  simp

theorem aDispatch_send (t id : Int) (rep : List Nat) (ret : Int)
    (lk : Int → String × String) (ht : t ≠ 0) :
    aDispatch t id rep true ret lk =
      .ok { callerBuffer := mutateBuffer id rep
            echoPrint := none
            backendCall := some { reportType := t - 1
                                  reportID := id
                                  buffer := mutateBuffer id rep
                                  reportSize := rep.length
                                  timeoutMs := 50 }
            timestampCaptures := if id = 0x11 then 1 else 0
            errorCode := ret
            lookupArg := some ret
            name := (lk ret).1
            description := (lk ret).2 } := by
  unfold aDispatch
  rw [if_neg ht]
  simp

theorem aDispatch_badInterface (t id : Int) (rep : List Nat) (ret : Int)
    (lk : Int → String × String) (ht : t ≠ 0) :
    aDispatch t id rep false ret lk = .error .BadInterface := by
  unfold aDispatch
  rw [if_neg ht]
  simp

theorem mutateBuffer_cons (id : Int) (a : Nat) (l : List Nat) (hid : id ≠ 0) :
    mutateBuffer id (a :: l) = lowByte id :: l := by
  simp [mutateBuffer, hid]

theorem mutateBuffer_zero (rep : List Nat) : mutateBuffer 0 rep = rep := by
  simp [mutateBuffer]

theorem exists_cons_of_validate_none (m : Nat) (t : Int) (rep : List Nat)
    (h : validate m t rep.length = none) : ∃ a l, rep = a :: l := by
  rw [validate_none_iff] at h
  cases rep with
  | nil => simp at h
  | cons a l => exact ⟨a, l, rfl⟩

/-! ### Claims -/

/-- Claim C1: for every reportID in [1,255] and every valid report buffer,
after the call the caller buffer has first byte `reportID & 0xFF`, the
remaining bytes are unchanged, and any backend invocation (on either
backend) receives exactly this mutated buffer, with no re-framing. -/
theorem c1_nonzero_reportID_mutation (m : Nat) (t id : Int) (rep : List Nat)
    (iok : Bool) (ret : Int) (lk : Int → String × String)
    (rB : BResult) (rA : AResult)
    (hid1 : 1 ≤ id) (hid2 : id ≤ 255)
    (hB : setReportB m t id rep ret lk = .ok rB)
    (hA : setReportA m t id rep iok ret lk = .ok rA) :
    rB.callerBuffer.head? = some (lowByte id)
    ∧ rB.callerBuffer.tail = rep.tail
    ∧ (∀ c, rB.backendCall = some c → c.buffer = rB.callerBuffer)
    ∧ rA.callerBuffer = rB.callerBuffer
    ∧ (∀ c, rA.backendCall = some c → c.buffer = rB.callerBuffer) := by
  have hid0 : id ≠ 0 := by omega
  rw [setReportB_ok_iff] at hB
  obtain ⟨hv, rfl⟩ := hB
  rw [setReportA_ok_iff] at hA
  obtain ⟨hv2, hA⟩ := hA
  obtain ⟨a, l, rfl⟩ := exists_cons_of_validate_none _ _ _ hv
  have hmut := mutateBuffer_cons id a l hid0
  rcases eq_or_ne t 0 with rfl | htne
  · rw [aDispatch_echo] at hA
    simp only [Except.ok.injEq] at hA
    subst hA
    rw [bDispatch_echo]
    simp [hmut]
  · cases iok with
    | false =>
        rw [aDispatch_badInterface _ _ _ _ _ htne] at hA
        simp at hA
    | true =>
        rw [aDispatch_send _ _ _ _ _ htne] at hA
        simp only [Except.ok.injEq] at hA
        subst hA
        rw [bDispatch_send _ _ _ _ _ htne]
        simp [hmut, hid0]

/-- Witness for C1 at the spec scenario: reportType 3, reportID 5,
report [0x00, 0x11, 0x22]. -/
theorem c1_nonzero_reportID_mutation_witness :
    (bDispatch 3 5 [0x00, 0x11, 0x22] 0 lk0).callerBuffer.head? =
      some (lowByte 5) :=
  (c1_nonzero_reportID_mutation 3 3 5 [0x00, 0x11, 0x22] true 0 lk0
      (bDispatch 3 5 [0x00, 0x11, 0x22] 0 lk0)
      { callerBuffer := [0x05, 0x11, 0x22]
        echoPrint := none
        backendCall := some { reportType := 2
                              reportID := 5
                              buffer := [0x05, 0x11, 0x22]
                              reportSize := 3
                              timeoutMs := 50 }
        timestampCaptures := 0
        errorCode := 0
        lookupArg := some 0
        name := ""
        description := "" }
      (by decide) (by decide) rfl rfl).1

/-- Claim C2: on Backend B with reportID 0 and a valid report of length n,
the backend receives a buffer of length n+1 whose first byte is 0 and
whose remaining bytes are exactly the caller bytes; the caller buffer is
not mutated. -/
theorem c2_backendB_zero_reportID_framing (m : Nat) (t : Int)
    (rep : List Nat) (ret : Int) (lk : Int → String × String) (rB : BResult)
    (ht : t = 2 ∨ t = 3)
    (hB : setReportB m t 0 rep ret lk = .ok rB) :
    rB.callerBuffer = rep
    ∧ rB.backendCall = some
        { op := if t = 2 then BOp.write else BOp.sendFeatureReport
          buffer := 0 :: rep }
    ∧ (∀ c, rB.backendCall = some c → c.buffer.length = rep.length + 1) := by
  have htne : t ≠ 0 := by rcases ht with rfl | rfl <;> decide
  rw [setReportB_ok_iff] at hB
  obtain ⟨hv, rfl⟩ := hB
  rw [bDispatch_send _ _ _ _ _ htne]
  simp [mutateBuffer_zero]

/-- Witness for C2 at the spec scenario: reportType 2, reportID 0,
report [0xAA, 0xBB] is written as [0x00, 0xAA, 0xBB]. -/
theorem c2_backendB_zero_reportID_framing_witness :
    (bDispatch 2 0 [0xAA, 0xBB] 0 lk0).callerBuffer = [0xAA, 0xBB]
    ∧ (bDispatch 2 0 [0xAA, 0xBB] 0 lk0).backendCall = some
        { op := if (2 : Int) = 2 then BOp.write else BOp.sendFeatureReport
          buffer := [0x00, 0xAA, 0xBB] } :=
  have h := c2_backendB_zero_reportID_framing 2 2 [0xAA, 0xBB] 0 lk0
    (bDispatch 2 0 [0xAA, 0xBB] 0 lk0) (Or.inl rfl) rfl
  ⟨h.1, h.2.1⟩

/-- Counterexample to C3 as stated: a validation-passing call with
reportID 0x11 but reportType 0 (Echo) performs zero timestamp captures on
both backends, not exactly one; the timestamp code sits in the non-echo
branch (lines 142-144 and 173-175). -/
theorem c3_counterexample_echo_no_capture :
    (setReportB 8 0 0x11 [1, 2] 0 lk0).map
        (fun r => r.timestampCaptures) = .ok 0
    ∧ (setReportA 8 0 0x11 [1, 2] true 0 lk0).map
        (fun r => r.timestampCaptures) = .ok 0 :=
  ⟨rfl, rfl⟩

/-- Claim C3 (amended): for every call that passes validation (and, on
Backend A, reaches the backend through a usable interface), exactly one
timestamp capture into AInScanStart occurs when reportID is 0x11 and the
reportType is a transmitting one (2 or 3), regardless of whether the
transmission succeeds or fails; for reportID other than 0x11, and on the
Echo path (reportType 0), no capture occurs. -/
theorem c3_amended_timestamp_capture (m : Nat) (t id : Int) (rep : List Nat)
    (iok : Bool) (ret : Int) (lk : Int → String × String)
    (rB : BResult) (rA : AResult)
    (hB : setReportB m t id rep ret lk = .ok rB)
    (hA : setReportA m t id rep iok ret lk = .ok rA) :
    rB.timestampCaptures = (if id = 0x11 ∧ t ≠ 0 then 1 else 0)
    ∧ rA.timestampCaptures = (if id = 0x11 ∧ t ≠ 0 then 1 else 0) := by
  rw [setReportB_ok_iff] at hB
  obtain ⟨hv, rfl⟩ := hB
  rw [setReportA_ok_iff] at hA
  obtain ⟨hv2, hA⟩ := hA
  rcases eq_or_ne t 0 with rfl | htne
  · rw [aDispatch_echo] at hA
    simp only [Except.ok.injEq] at hA
    subst hA
    rw [bDispatch_echo]
    simp
  · cases iok with
    | false =>
        rw [aDispatch_badInterface _ _ _ _ _ htne] at hA
        simp at hA
    | true =>
        rw [aDispatch_send _ _ _ _ _ htne] at hA
        simp only [Except.ok.injEq] at hA
        subst hA
        rw [bDispatch_send _ _ _ _ _ htne]
        rcases eq_or_ne id 0x11 with rfl | hidne
        · simp [htne]
        · simp [htne, hidne]

/-- Witness for the amended C3: a failing feature-report transmission
(backend return -1) with reportID 0x11 still captures exactly one
timestamp. -/
theorem c3_amended_timestamp_capture_witness :
    (bDispatch 3 0x11 [1, 2] (-1) lk0).timestampCaptures =
      (if (0x11 : Int) = 0x11 ∧ (3 : Int) ≠ 0 then 1 else 0) :=
  (c3_amended_timestamp_capture 8 3 0x11 [1, 2] true (-1) lk0
      (bDispatch 3 0x11 [1, 2] (-1) lk0)
      { callerBuffer := [0x11, 2]
        echoPrint := none
        backendCall := some { reportType := 2
                              reportID := 0x11
                              buffer := [0x11, 2]
                              reportSize := 2
                              timeoutMs := 50 }
        timestampCaptures := 1
        errorCode := -1
        lookupArg := some (-1)
        name := ""
        description := "" }
      rfl rfl).1

/-- Claim C4: a report of length 0 fails with the empty-report error, a
report longer than MAXREPORTSIZE fails with the size error (in
particular at length MAXREPORTSIZE+1), and length exactly MAXREPORTSIZE
passes validation; the failing calls abort with no buffer mutation and
no backend interaction (the model's error outcome carries no effects). -/
theorem c4_size_validation (m : Nat) (t id : Int) (rep : List Nat)
    (iok : Bool) (ret : Int) (lk : Int → String × String) :
    (rep.length = 0 →
        setReportB m t id rep ret lk = .error .EmptyReportError
        ∧ setReportA m t id rep iok ret lk = .error .EmptyReportError)
    ∧ (rep.length > m →
        setReportB m t id rep ret lk = .error .SizeError
        ∧ setReportA m t id rep iok ret lk = .error .SizeError)
    ∧ (rep.length = m → 1 ≤ m → (t = 0 ∨ t = 2 ∨ t = 3) →
        validate m t rep.length = none
        ∧ ∃ r, setReportB m t id rep ret lk = .ok r)
    ∧ (rep.length = m + 1 →
        setReportB m t id rep ret lk = .error .SizeError) := by
  refine ⟨?_, ?_, ?_, ?_⟩
  · intro h
    have hv : validate m t rep.length = some .EmptyReportError := by
      unfold validate
      rw [h]
      simp
    exact ⟨setReportB_err_of_validate _ _ _ _ _ _ _ hv,
           setReportA_err_of_validate _ _ _ _ _ _ _ _ hv⟩
  · intro h
    have hv : validate m t rep.length = some .SizeError := by
      unfold validate
      rw [if_pos h]
    exact ⟨setReportB_err_of_validate _ _ _ _ _ _ _ hv,
           setReportA_err_of_validate _ _ _ _ _ _ _ _ hv⟩
  · intro h hm ht
    have hv : validate m t rep.length = none := by
      rw [validate_none_iff]
      exact ⟨by omega, by omega, ht⟩
    exact ⟨hv, bDispatch t id rep ret lk, by
      rw [setReportB_ok_iff]
      exact ⟨hv, rfl⟩⟩
  · intro h
    have hv : validate m t rep.length = some .SizeError := by
      unfold validate
      rw [if_pos (by omega)]
    exact setReportB_err_of_validate _ _ _ _ _ _ _ hv

/-- Witness for C4 at MAXREPORTSIZE 2: length 0 and length 3 fail, length
2 passes. -/
theorem c4_size_validation_witness :
    setReportB 2 2 5 ([] : List Nat) 0 lk0 = .error .EmptyReportError
    ∧ setReportB 2 2 5 [1, 2, 3] 0 lk0 = .error .SizeError
    ∧ (∃ r, setReportB 2 2 5 [1, 2] 0 lk0 = .ok r) :=
  ⟨((c4_size_validation 2 2 5 [] true 0 lk0).1 rfl).1,
   ((c4_size_validation 2 2 5 [1, 2, 3] true 0 lk0).2.1 (by decide)).1,
   ((c4_size_validation 2 2 5 [1, 2] true 0 lk0).2.2.1 rfl (by decide)
      (Or.inr (Or.inl rfl))).2⟩

/-- Claim C5: every reportType outside {0,2,3} fails validation with the
invalid-type error on both backends (no transmission occurs), while any
reportType in {0,2,3} passes the type check. -/
theorem c5_reportType_validation (m : Nat) (t id : Int) (rep : List Nat)
    (iok : Bool) (ret : Int) (lk : Int → String × String)
    (hlen1 : 1 ≤ rep.length) (hlen2 : rep.length ≤ m) :
    (¬(t = 0 ∨ t = 2 ∨ t = 3) →
        setReportB m t id rep ret lk = .error .InvalidTypeError
        ∧ setReportA m t id rep iok ret lk = .error .InvalidTypeError)
    ∧ ((t = 0 ∨ t = 2 ∨ t = 3) → validate m t rep.length = none) := by
  constructor
  · intro ht
    have hc : t < 0 ∨ t > 3 ∨ t = 1 := by omega
    have hv : validate m t rep.length = some .InvalidTypeError := by
      unfold validate
      rw [if_neg (by omega), if_neg (by omega), if_pos hc]
    exact ⟨setReportB_err_of_validate _ _ _ _ _ _ _ hv,
           setReportA_err_of_validate _ _ _ _ _ _ _ _ hv⟩
  · intro ht
    rw [validate_none_iff]
    exact ⟨hlen2, hlen1, ht⟩

/-- Witness for C5: reportType 1 (Input) is rejected, reportType 2
passes the type check. -/
theorem c5_reportType_validation_witness :
    setReportB 4 1 5 [9] 0 lk0 = .error .InvalidTypeError
    ∧ validate 4 2 ([9] : List Nat).length = none :=
  ⟨((c5_reportType_validation 4 1 5 [9] true 0 lk0 (by decide)
      (by decide)).1 (by decide)).1,
   (c5_reportType_validation 4 2 5 [9] true 0 lk0 (by decide)
      (by decide)).2 (Or.inr (Or.inl rfl))⟩

/-- Claim C6: for reportType 0 (Echo) with any valid reportID and report,
the call returns code 0 with empty name and description, performs no
backend invocation on either backend and no error lookup, and only
prints reportType, reportID and the (possibly mutated) report bytes. -/
theorem c6_echo_no_transmission (m : Nat) (id : Int) (rep : List Nat)
    (iok : Bool) (ret : Int) (lk : Int → String × String)
    (rB : BResult) (rA : AResult)
    (hB : setReportB m 0 id rep ret lk = .ok rB)
    (hA : setReportA m 0 id rep iok ret lk = .ok rA) :
    rB.errorCode = 0 ∧ rB.name = "" ∧ rB.description = ""
    ∧ rB.backendCall = none ∧ rB.lookupArg = none
    ∧ rB.echoPrint = some (0, id, mutateBuffer id rep)
    ∧ rA.errorCode = 0 ∧ rA.name = "" ∧ rA.description = ""
    ∧ rA.backendCall = none ∧ rA.lookupArg = none
    ∧ rA.echoPrint = some (0, id, mutateBuffer id rep) := by
  rw [setReportB_ok_iff] at hB
  obtain ⟨hv, rfl⟩ := hB
  rw [setReportA_ok_iff] at hA
  obtain ⟨hv2, hA⟩ := hA
  rw [aDispatch_echo] at hA
  simp only [Except.ok.injEq] at hA
  subst hA
  rw [bDispatch_echo]
  simp

/-- Witness for C6: an echo call with reportID 5 returns code 0. -/
theorem c6_echo_no_transmission_witness :
    (bDispatch 0 5 [1] 0 lk0).errorCode = 0 :=
  (c6_echo_no_transmission 4 5 [1] true 0 lk0
      (bDispatch 0 5 [1] 0 lk0)
      { callerBuffer := [5]
        echoPrint := some (0, 5, [5])
        backendCall := none
        timestampCaptures := 0
        errorCode := 0
        lookupArg := none
        name := ""
        description := "" }
      rfl rfl).1

/-- Claim C7: on Backend B, a negative backend return is kept as the
returned error code (and handed as-is to the error lookup), while every
non-negative return is normalized to result code 0 before the error
lookup. -/
theorem c7_backendB_error_normalization (m : Nat) (t id : Int)
    (rep : List Nat) (ret : Int) (lk : Int → String × String)
    (rB : BResult)
    (ht : t = 2 ∨ t = 3)
    (hB : setReportB m t id rep ret lk = .ok rB) :
    (ret < 0 → rB.errorCode = ret ∧ rB.lookupArg = some ret)
    ∧ (0 ≤ ret → rB.errorCode = 0 ∧ rB.lookupArg = some 0) := by
  have htne : t ≠ 0 := by rcases ht with rfl | rfl <;> decide
  rw [setReportB_ok_iff] at hB
  obtain ⟨hv, rfl⟩ := hB
  rw [bDispatch_send _ _ _ _ _ htne]
  constructor
  · intro hneg
    simp [not_le.mpr hneg]
  · intro hpos
    simp [hpos]

/-- Witness for C7: a backend return of -3 is kept, a return of 2 (bytes
written) is normalized to 0. -/
theorem c7_backendB_error_normalization_witness :
    ((bDispatch 2 7 [1] (-3) lk0).errorCode = -3
      ∧ (bDispatch 2 7 [1] (-3) lk0).lookupArg = some (-3))
    ∧ ((bDispatch 2 7 [1] 2 lk0).errorCode = 0
      ∧ (bDispatch 2 7 [1] 2 lk0).lookupArg = some 0) :=
  ⟨(c7_backendB_error_normalization 4 2 7 [1] (-3) lk0
      (bDispatch 2 7 [1] (-3) lk0) (Or.inl rfl) rfl).1 (by decide),
   (c7_backendB_error_normalization 4 2 7 [1] 2 lk0
      (bDispatch 2 7 [1] 2 lk0) (Or.inl rfl) rfl).2 (by decide)⟩

/-- Claim C8: on Backend A, every non-echo call with a usable interface
invokes the backend setReport operation exactly once, with report type
reportType - 1, the given reportID, the (possibly mutated) buffer, the
report length and a fixed 50 ms timeout. -/
theorem c8_backendA_setReport_arguments (m : Nat) (t id : Int)
    (rep : List Nat) (ret : Int) (lk : Int → String × String)
    (rA : AResult)
    (ht : t = 2 ∨ t = 3)
    (hA : setReportA m t id rep true ret lk = .ok rA) :
    rA.backendCall = some { reportType := t - 1
                            reportID := id
                            buffer := mutateBuffer id rep
                            reportSize := rep.length
                            timeoutMs := 50 } := by
  have htne : t ≠ 0 := by rcases ht with rfl | rfl <;> decide
  rw [setReportA_ok_iff] at hA
  obtain ⟨hv, hA⟩ := hA
  rw [aDispatch_send _ _ _ _ _ htne] at hA
  simp only [Except.ok.injEq] at hA
  subst hA
  rfl

/-- Witness for C8: a feature report with reportID 5 reaches the backend
as report type 2 with a 50 ms timeout. -/
theorem c8_backendA_setReport_arguments_witness :
    ({ callerBuffer := [5, 9]
       echoPrint := none
       backendCall := some { reportType := 2
                             reportID := 5
                             buffer := [5, 9]
                             reportSize := 2
                             timeoutMs := 50 }
       timestampCaptures := 0
       errorCode := 0
       lookupArg := some 0
       name := ""
       description := "" } : AResult).backendCall =
      some { reportType := (3 : Int) - 1
             reportID := 5
             buffer := mutateBuffer 5 [1, 9]
             reportSize := 2
             timeoutMs := 50 } :=
  c8_backendA_setReport_arguments 4 3 5 [1, 9] 0 lk0 _
    (Or.inr rfl) rfl

/-- Claim C9: reportID is never range-validated: any integer reportID,
also outside [0,255], passes validation on both backends; any nonzero
reportID takes the nonzero path, overwriting the first byte with its low
byte and skipping the Backend B zero-framing, even when the low byte is
0 (as for reportID 256). -/
theorem c9_reportID_not_range_validated (m : Nat) (t id : Int)
    (rep : List Nat) (ret : Int) (lk : Int → String × String)
    (hlen1 : 1 ≤ rep.length) (hlen2 : rep.length ≤ m)
    (ht : t = 0 ∨ t = 2 ∨ t = 3) :
    (∃ r, setReportB m t id rep ret lk = .ok r)
    ∧ (∃ r, setReportA m t id rep true ret lk = .ok r)
    ∧ (id ≠ 0 → ∀ r, setReportB m t id rep ret lk = .ok r →
        r.callerBuffer = rep.set 0 (lowByte id)
        ∧ ∀ c, r.backendCall = some c → c.buffer = rep.set 0 (lowByte id))
    ∧ lowByte 256 = 0 := by
  have hv : validate m t rep.length = none := by
    rw [validate_none_iff]
    exact ⟨hlen2, hlen1, ht⟩
  refine ⟨⟨bDispatch t id rep ret lk, ?_⟩, ?_, ?_, by decide⟩
  · rw [setReportB_ok_iff]
    exact ⟨hv, rfl⟩
  · rcases eq_or_ne t 0 with rfl | htne
    · exact ⟨_, by
        rw [setReportA_ok_iff]
        exact ⟨hv, aDispatch_echo id rep true ret lk⟩⟩
    · exact ⟨_, by
        rw [setReportA_ok_iff]
        exact ⟨hv, aDispatch_send t id rep ret lk htne⟩⟩
  · intro hid0 r hr
    rw [setReportB_ok_iff] at hr
    obtain ⟨-, rfl⟩ := hr
    have hmb : mutateBuffer id rep = rep.set 0 (lowByte id) := by
      simp [mutateBuffer, hid0]
    rcases eq_or_ne t 0 with rfl | htne
    · rw [bDispatch_echo]
      simp [hmb]
    · rw [bDispatch_send _ _ _ _ _ htne]
      simp [hmb, hid0]

/-- Witness for C9: reportID 256 passes validation and has low byte 0. -/
theorem c9_reportID_not_range_validated_witness :
    (∃ r, setReportB 4 2 256 [7, 8] 0 lk0 = .ok r)
    ∧ lowByte 256 = 0 :=
  have h := c9_reportID_not_range_validated 4 2 256 [7, 8] 0 lk0
    (by decide) (by decide) (Or.inr (Or.inl rfl))
  ⟨h.1, h.2.2.2⟩

/-- Claim C10: given the validated precondition reportSize ≤
MAXREPORTSIZE, every index written by the zero-reportID framing path
(the framing byte at 0 and the memcpy targets 1..reportSize) lies within
the scratch buffer of MAXREPORTSIZE+1 bytes, and the framed buffer the
model hands to the backend fits in the scratch buffer. -/
theorem c10_scratch_framing_in_bounds (m n : Nat) (h : n ≤ m) :
    (∀ i ∈ zeroFrameWriteIndices n, i < scratchBufferSize m)
    ∧ (∀ (t : Int) (rep : List Nat) (ret : Int)
        (lk : Int → String × String) (r : BResult) (c : BCall),
        rep.length = n → setReportB m t 0 rep ret lk = .ok r →
        r.backendCall = some c → c.buffer.length ≤ scratchBufferSize m) := by
  constructor
  · intro i hi
    rw [zeroFrameWriteIndices, List.mem_range] at hi
    rw [scratchBufferSize]
    omega
  · intro t rep ret lk r c hlen hr hc
    rw [setReportB_ok_iff] at hr
    obtain ⟨hv, rfl⟩ := hr
    rcases eq_or_ne t 0 with rfl | htne
    · rw [bDispatch_echo] at hc
      simp at hc
    · rw [bDispatch_send _ _ _ _ _ htne] at hc
      simp only [Option.some.injEq] at hc
      subst hc
      simp [mutateBuffer_zero, scratchBufferSize]
      omega

/-- Witness for C10 at MAXREPORTSIZE 3 and report length 2: the largest
written index 2 is in bounds and the framed buffer has length 3 ≤ 4. -/
theorem c10_scratch_framing_in_bounds_witness :
    ({ op := BOp.write, buffer := [0, 7, 8] } : BCall).buffer.length ≤
        scratchBufferSize 3
    ∧ (2 : Nat) < scratchBufferSize 3 :=
  have h := c10_scratch_framing_in_bounds 3 2 (by decide)
  ⟨h.2 2 [7, 8] 0 lk0 (bDispatch 2 0 [7, 8] 0 lk0)
      { op := BOp.write, buffer := [0, 7, 8] } rfl rfl rfl,
   h.1 2 (by decide)⟩

end PsychHIDSetReport
